import Mathlib

/-!
Shallow embedding of the CARMA plan delegator
(src/plan_delegator/include/plan_delegator.hpp) and of the ASN.1 BSM JNI
wrapper (src/lib_asn1c/src/wrapper.c), together with theorems checking the
natural-language specification against the code.

The header provides the GET_MANEUVER_PROPERTY macro in full, but only
declarations for the PlanDelegator member functions; those members are
embedded from the specification and carry a doc comment starting with
"Modelled from the spec". Times, distances and the C floating-point values
are idealized as exact rationals.
-/

/-- Maneuver variant tag constant from the external cav_msgs Maneuver
message (distinct uint8 tags). -/
def LANE_FOLLOWING : Nat := 0

/-- Maneuver variant tag constant from the external cav_msgs Maneuver
message. -/
def LANE_CHANGE : Nat := 1

/-- Maneuver variant tag constant from the external cav_msgs Maneuver
message. -/
def INTERSECTION_TRANSIT_STRAIGHT : Nat := 2

/-- Maneuver variant tag constant from the external cav_msgs Maneuver
message. -/
def INTERSECTION_TRANSIT_LEFT_TURN : Nat := 3

/-- Maneuver variant tag constant from the external cav_msgs Maneuver
message. -/
def INTERSECTION_TRANSIT_RIGHT_TURN : Nat := 4

/-- The five known variant tags, in the order the macro checks them. -/
def knownManeuverTypes : List Nat :=
  [INTERSECTION_TRANSIT_LEFT_TURN, INTERSECTION_TRANSIT_RIGHT_TURN,
   INTERSECTION_TRANSIT_STRAIGHT, LANE_CHANGE, LANE_FOLLOWING]

/-- Payload of the intersection-transit-left-turn variant, carrying the
common field set shared by all five variants (spec section 3): planner name,
absolute start and end times, start and end distances. -/
structure IntersectionTransitLeftTurnManeuver where
  planner_name : String
  start_time : Rat
  end_time : Rat
  start_dist : Rat
  end_dist : Rat
deriving DecidableEq

/-- Payload of the intersection-transit-right-turn variant. -/
structure IntersectionTransitRightTurnManeuver where
  planner_name : String
  start_time : Rat
  end_time : Rat
  start_dist : Rat
  end_dist : Rat
deriving DecidableEq

/-- Payload of the intersection-transit-straight variant. -/
structure IntersectionTransitStraightManeuver where
  planner_name : String
  start_time : Rat
  end_time : Rat
  start_dist : Rat
  end_dist : Rat
deriving DecidableEq

/-- Payload of the lane-change variant. -/
structure LaneChangeManeuver where
  planner_name : String
  start_time : Rat
  end_time : Rat
  start_dist : Rat
  end_dist : Rat
deriving DecidableEq

/-- Payload of the lane-following variant. -/
structure LaneFollowingManeuver where
  planner_name : String
  start_time : Rat
  end_time : Rat
  start_dist : Rat
  end_dist : Rat
deriving DecidableEq

/-- cav_msgs Maneuver: a tag plus one sub-message per variant. The ROS
message carries all five payload members; `type` selects the active one. -/
structure Maneuver where
  type : Nat
  intersection_transit_left_turn_maneuver : IntersectionTransitLeftTurnManeuver
  intersection_transit_right_turn_maneuver : IntersectionTransitRightTurnManeuver
  intersection_transit_straight_maneuver : IntersectionTransitStraightManeuver
  lane_change_maneuver : LaneChangeManeuver
  lane_following_maneuver : LaneFollowingManeuver
deriving DecidableEq

/-- A field name usable as the `property` argument of the
GET_MANEUVER_PROPERTY macro: the same textual field, resolved on each of the
five payload types. -/
structure CommonField (α : Type) where
  onITLT : IntersectionTransitLeftTurnManeuver → α
  onITRT : IntersectionTransitRightTurnManeuver → α
  onITS : IntersectionTransitStraightManeuver → α
  onLC : LaneChangeManeuver → α
  onLF : LaneFollowingManeuver → α

/-- plan_delegator.hpp lines 36-42: the chained ternary dispatch on the
maneuver tag, projecting `property` from the matching variant payload. The
final branch of the C++ macro throws std::invalid_argument; fallible code is
embedded as Except, so that branch is the error case. -/
def GET_MANEUVER_PROPERTY {α : Type} (mvr : Maneuver) (property : CommonField α) :
    Except String α :=
  if mvr.type = INTERSECTION_TRANSIT_LEFT_TURN then
    .ok (property.onITLT mvr.intersection_transit_left_turn_maneuver)
  else if mvr.type = INTERSECTION_TRANSIT_RIGHT_TURN then
    .ok (property.onITRT mvr.intersection_transit_right_turn_maneuver)
  else if mvr.type = INTERSECTION_TRANSIT_STRAIGHT then
    .ok (property.onITS mvr.intersection_transit_straight_maneuver)
  else if mvr.type = LANE_CHANGE then
    .ok (property.onLC mvr.lane_change_maneuver)
  else if mvr.type = LANE_FOLLOWING then
    .ok (property.onLF mvr.lane_following_maneuver)
  else
    .error "GET_MANEUVER_PROPERTY called on maneuver with invalid type id"

/-- The shared planner-name field as a GET_MANEUVER_PROPERTY argument. -/
def planner_nameField : CommonField String :=
  ⟨(·.planner_name), (·.planner_name), (·.planner_name), (·.planner_name), (·.planner_name)⟩

/-- The shared end-time field as a GET_MANEUVER_PROPERTY argument. -/
def end_timeField : CommonField Rat :=
  ⟨(·.end_time), (·.end_time), (·.end_time), (·.end_time), (·.end_time)⟩

/-- Build a maneuver whose five payloads all carry the same common field
values; convenient for concrete inputs. -/
def mkManeuver (tag : Nat) (pname : String) (st et sd ed : Rat) : Maneuver :=
  { type := tag
    intersection_transit_left_turn_maneuver := ⟨pname, st, et, sd, ed⟩
    intersection_transit_right_turn_maneuver := ⟨pname, st, et, sd, ed⟩
    intersection_transit_straight_maneuver := ⟨pname, st, et, sd, ed⟩
    lane_change_maneuver := ⟨pname, st, et, sd, ed⟩
    lane_following_maneuver := ⟨pname, st, et, sd, ed⟩ }

/-- Modelled from the spec: TrajectoryPoint (spec section 3) — one planned
pose/time sample; the cav_msgs message definition is not among the provided
sources. -/
structure TrajectoryPoint where
  target_time : Rat
  x : Rat
  y : Rat
deriving DecidableEq

/-- Modelled from the spec: TrajectoryPlan — an ordered sequence of
trajectory points. -/
structure TrajectoryPlan where
  trajectory_points : List TrajectoryPoint
deriving DecidableEq

/-- Modelled from the spec: PlanDelegator::IsManeuverExpired (declared at
plan_delegator.hpp:104, implementation not among the provided sources) —
true iff the maneuver end time is strictly before `now` (spec 4.2). The end
time is read through the variant dispatch, so an unknown tag surfaces as the
error case. -/
def IsManeuverExpired (m : Maneuver) (now : Rat) : Except String Bool :=
  (GET_MANEUVER_PROPERTY m end_timeField).map (fun et => decide (et < now))

/-- Modelled from the spec: PlanDelegator::IsManeuverPlanValid
(plan_delegator.hpp:110, implementation not provided) — plan pointer
non-null and at least one maneuver (spec 4.2). -/
def IsManeuverPlanValid (plan : Option (List Maneuver)) : Bool :=
  match plan with
  | some ms => !ms.isEmpty
  | none => false

/-- Modelled from the spec: PlanDelegator::IsTrajectoryValid
(plan_delegator.hpp:116, implementation not provided) — true iff the plan
has at least two trajectory points (spec 4.2). -/
def IsTrajectoryValid (t : TrajectoryPlan) : Bool :=
  decide (2 ≤ t.trajectory_points.length)

/-- Modelled from the spec: PlanDelegator::IsTrajectoryLongEnough
(plan_delegator.hpp:122, implementation not provided) — true iff the time
span from first to last point is at least the configured maximum trajectory
duration (spec 4.2). -/
def IsTrajectoryLongEnough (t : TrajectoryPlan) (maxDuration : Rat) : Bool :=
  match t.trajectory_points.head?, t.trajectory_points.getLast? with
  | some f, some l => decide (maxDuration ≤ l.target_time - f.target_time)
  | _, _ => false

/-- Modelled from the spec: step e of the delegation loop (spec 4.4) —
append the returned segment to the accumulated trajectory, joining at the
boundary when the planner echoes the accumulated trajectory's last point. -/
def appendSegment (acc seg : TrajectoryPlan) : TrajectoryPlan :=
  match acc.trajectory_points.getLast?, seg.trajectory_points.head? with
  | some a, some s =>
    if a = s then ⟨acc.trajectory_points ++ seg.trajectory_points.tail⟩
    else ⟨acc.trajectory_points ++ seg.trajectory_points⟩
  | _, _ => ⟨acc.trajectory_points ++ seg.trajectory_points⟩

/-- Modelled from the spec: the per-maneuver dispatch loop of
PlanDelegator::PlanTrajectory (declared at plan_delegator.hpp:134,
implementation not among the provided sources), spec 4.4 step 3. `cp` is the
remote planner collaborator: it receives the maneuver and the accumulated
trajectory and returns the new segment, or none on PlannerUnavailable /
PlannerCallFailed. Besides the trajectory, the list of maneuvers for which a
planner request was issued is returned, so that theorems can speak about
which planners were invoked. An unknown-variant maneuver or an expired
maneuver is skipped (spec 4.4a and section 7); a failed call stops the loop
keeping the partial result (spec 4.4d); once the accumulated trajectory is
long enough the loop stops early (spec 4.4f). -/
def PlanTrajectoryAux (cp : Maneuver → TrajectoryPlan → Option TrajectoryPlan)
    (now maxDuration : Rat) :
    List Maneuver → TrajectoryPlan → List Maneuver → TrajectoryPlan × List Maneuver
  | [], acc, log => (acc, log)
  | m :: rest, acc, log =>
    match IsManeuverExpired m now with
    | .error _ => PlanTrajectoryAux cp now maxDuration rest acc log
    | .ok true => PlanTrajectoryAux cp now maxDuration rest acc log
    | .ok false =>
      match cp m acc with
      | none => (acc, log ++ [m])
      | some seg =>
        let acc2 := appendSegment acc seg
        if IsTrajectoryLongEnough acc2 maxDuration then (acc2, log ++ [m])
        else PlanTrajectoryAux cp now maxDuration rest acc2 (log ++ [m])

/-- Modelled from the spec: PlanDelegator::PlanTrajectory — run the
delegation loop from the empty trajectory over the latest maneuver plan. -/
def PlanTrajectory (cp : Maneuver → TrajectoryPlan → Option TrajectoryPlan)
    (now maxDuration : Rat) (maneuvers : List Maneuver) : TrajectoryPlan × List Maneuver :=
  PlanTrajectoryAux cp now maxDuration maneuvers ⟨[]⟩ []

/-- Modelled from the spec: PlanDelegator::SpinCallback (declared at
plan_delegator.hpp:98, implementation not among the provided sources) —
steps 1, 4 and 5 of spec 4.4: skip the cycle when the cached plan is
invalid, run the delegation loop, discard a degenerate (fewer than two
points) trajectory, otherwise publish it. The returned value is the
published trajectory, if any. -/
def SpinCallback (cp : Maneuver → TrajectoryPlan → Option TrajectoryPlan)
    (plan : Option (List Maneuver)) (now maxDuration : Rat) : Option TrajectoryPlan :=
  if IsManeuverPlanValid plan then
    let traj := (PlanTrajectory cp now maxDuration (plan.getD [])).1
    if IsTrajectoryValid traj then some traj else none
  else none

/-- The name-to-client map (plan_delegator.hpp:83) with a counter supplying
fresh connection handles; connections are modelled by Nat ids, the
unordered_map by an association list. -/
structure PlannerRegistry where
  trajectory_planners : List (String × Nat)
  next_id : Nat
deriving DecidableEq

/-- Lookup in the association list modelling the unordered_map. -/
def lookupClient : List (String × Nat) → String → Option Nat
  | [], _ => none
  | (k, v) :: rest, n => if k = n then some v else lookupClient rest n

/-- Modelled from the spec: PlanDelegator::GetPlannerClientByName (declared
at plan_delegator.hpp:141, implementation not among the provided sources) —
return the cached client for the name, or create, cache and return a fresh
one (spec 4.3). -/
def GetPlannerClientByName (r : PlannerRegistry) (name : String) : Nat × PlannerRegistry :=
  match lookupClient r.trajectory_planners name with
  | some c => (c, r)
  | none =>
    (r.next_id, ⟨r.trajectory_planners ++ [(name, r.next_id)], r.next_id + 1⟩)

/-- Invariant maintained by the registry: every cached id is below the fresh
counter, and cached ids are pairwise distinct. -/
def RegistryWF (r : PlannerRegistry) : Prop :=
  (∀ p ∈ r.trajectory_planners, p.2 < r.next_id) ∧
    (r.trajectory_planners.map Prod.snd).Nodup

/-- Concrete maneuver M1 of the two-maneuver scenario (spec section 8):
spans 0 to 5 seconds. -/
def maneuverM1 : Maneuver := mkManeuver LANE_FOLLOWING "planner_a" 0 5 0 50

/-- Concrete maneuver M2 of the two-maneuver scenario: spans 5 to 12
seconds. -/
def maneuverM2 : Maneuver := mkManeuver LANE_CHANGE "planner_b" 5 12 50 120

/-- A further maneuver beyond the horizon, used to observe that the loop
stops requesting planners once the budget is met. -/
def maneuverM3 : Maneuver := mkManeuver LANE_FOLLOWING "planner_c" 12 20 120 200

/-- The 5-second segment returned by M1's planner. -/
def segM1 : TrajectoryPlan := ⟨[⟨0, 0, 0⟩, ⟨5, 10, 0⟩]⟩

/-- The 7-second segment returned by M2's planner. -/
def segM2 : TrajectoryPlan := ⟨[⟨5, 20, 0⟩, ⟨12, 30, 0⟩]⟩

/-- Planner collaborator for the C3 scenario: M1's and M2's planners answer
with their segments, nothing else answers. -/
def scenarioPlanners : Maneuver → TrajectoryPlan → Option TrajectoryPlan :=
  fun m _ => if m = maneuverM1 then some segM1 else if m = maneuverM2 then some segM2 else none

/-- Planner collaborator for the C7 scenario: M1's planner call fails, M2's
planner would succeed. -/
def cpFailM1 : Maneuver → TrajectoryPlan → Option TrajectoryPlan :=
  fun m _ => if m = maneuverM2 then some segM2 else none

/-- Planner collaborator whose every call fails. -/
def cpNone : Maneuver → TrajectoryPlan → Option TrajectoryPlan :=
  fun _ _ => none

/-- A maneuver with an unrecognized variant tag. -/
def unknownTagManeuver : Maneuver := mkManeuver 99 "planner_a" 0 5 0 10

/-- A known-variant sample maneuver ending at time 5. -/
def sampleManeuver : Maneuver := mkManeuver LANE_FOLLOWING "planner_a" 0 5 0 10

/-- Inputs read from the Java BSM objects by the encoder's JNI getter calls
(wrapper.c lines 38-128). C doubles and floats are idealized as exact
rationals; jbyte and jshort values as integers. -/
structure BSMCoreInput where
  msgCount : Int
  secMark : Int
  latitude : Rat
  longitude : Rat
  elev : Rat
  semiMajor : Rat
  semiMinor : Rat
  orientation : Rat
  transmissionState : Int
  speed : Rat
  heading : Rat
  angle : Rat
  accelLong : Rat
  accelLat : Rat
  accelVert : Rat
  accelYaw : Rat
  vehicleWidth : Rat
  vehicleLength : Rat
deriving DecidableEq

/-- The BasicSafetyMessage coreData fields the wrapper reads and writes
(asn1c MessageFrame value, flattened). -/
structure BSMCoreData where
  msgCnt : Int
  id : List Int
  secMark : Int
  lat : Rat
  long : Rat
  elev : Rat
  accuracy_semiMajor : Rat
  accuracy_semiMinor : Rat
  accuracy_orientation : Rat
  transmission : Int
  speed : Rat
  heading : Rat
  angle : Rat
  accelSet_long : Rat
  accelSet_lat : Rat
  accelSet_vert : Rat
  accelSet_yaw : Rat
  brakes_wheelBrakes : List Int
  brakes_traction : Int
  brakes_abs : Int
  brakes_scs : Int
  brakes_brakeBoost : Int
  brakes_auxBrakes : Int
  size_width : Rat
  size_length : Rat
deriving DecidableEq

/-- The asn1c MessageFrame populated by the encoder. -/
structure MessageFrame where
  messageId : Int
  coreData : BSMCoreData
deriving DecidableEq

/-- wrapper.c lines 33-130: populate the MessageFrame from the Java inputs,
applying the unit scalings written in the C source. The Java caller supplies
a 4-byte id array and a 6-byte brake-status array; out-of-range reads
default to 0 here. -/
def buildMessageFrame (bsm : BSMCoreInput) (bsm_id_elems brake_elems : List Int) :
    MessageFrame :=
  { messageId := 20
    coreData := {
      msgCnt := bsm.msgCount
      id := [bsm_id_elems.getD 0 0, bsm_id_elems.getD 1 0,
             bsm_id_elems.getD 2 0, bsm_id_elems.getD 3 0]
      secMark := bsm.secMark
      lat := bsm.latitude * 10000000
      long := bsm.longitude * 10000000
      elev := bsm.elev * 10
      accuracy_semiMajor := bsm.semiMajor / 0.05
      accuracy_semiMinor := bsm.semiMinor / 0.05
      accuracy_orientation := bsm.orientation / 0.054932479
      transmission := bsm.transmissionState
      speed := bsm.speed / 0.02
      heading := bsm.heading / 0.0125
      angle := bsm.angle / 1.5
      accelSet_long := bsm.accelLong / 0.01
      accelSet_lat := bsm.accelLat / 0.01
      accelSet_vert := bsm.accelVert / 0.02
      accelSet_yaw := bsm.accelYaw / 0.01
      brakes_wheelBrakes := [brake_elems.getD 0 0]
      brakes_traction := brake_elems.getD 1 0
      brakes_abs := brake_elems.getD 2 0
      brakes_scs := brake_elems.getD 3 0
      brakes_brakeBoost := brake_elems.getD 4 0
      brakes_auxBrakes := brake_elems.getD 5 0
      size_width := bsm.vehicleWidth * 100
      size_length := bsm.vehicleLength * 100 } }

/-- The pieces of the JNI/asn1c environment the encoder branches on
(wrapper.c lines 21-142): allocation success, bsm_id element access (checked
at line 46), brake-status element access (used at lines 110-121), the UPER
encoder verdict (ec.encoded) and output buffer, and output-array
creation. -/
structure EncodeEnv where
  callocOk : Bool
  bsmIdElements : Option (List Int)
  brakeElements : List Int
  uperEncodedBits : MessageFrame → Int
  uperBuffer : MessageFrame → List Int
  newByteArrayOk : Bool

/-- wrapper.c lines 11-144, Java_..._encode_1BSM: NULL is embedded as none;
a successful encode returns the first ec.encoded / 8 bytes of the encoding
buffer (SetByteArrayRegion at line 142). -/
def encode_BSM (env : EncodeEnv) (bsm : BSMCoreInput) : Option (List Int) :=
  if !env.callocOk then none
  else
    match env.bsmIdElements with
    | none => none
    | some idElems =>
      let message := buildMessageFrame bsm idElems env.brakeElements
      let ec := env.uperEncodedBits message
      if ec = -1 then none
      else if !env.newByteArrayOk then none
      else some ((env.uperBuffer message).take (ec / 8).toNat)

/-- The decoder's view of the asn1c environment: uper_decode either yields a
MessageFrame core-data record (RC_OK) or fails (wrapper.c line 166). -/
structure DecodeEnv where
  uperDecode : List Int → Option BSMCoreData

/-- State of the Java output objects the decoder writes through JNI setter
calls and SetByteArrayRegion (wrapper.c lines 169-252). -/
structure BSMOutputs where
  msgCount : Int
  bsm_id : List Int
  secMark : Int
  latitude : Rat
  longitude : Rat
  elev : Rat
  semiMajor : Rat
  semiMinor : Rat
  orientation : Rat
  transmissionState : Int
  speed : Rat
  heading : Rat
  angle : Rat
  accelLong : Rat
  accelLat : Rat
  accelVert : Rat
  accelYaw : Rat
  brakeStatus : List Int
  vehicleWidth : Rat
  vehicleLength : Rat
deriving DecidableEq

/-- wrapper.c lines 169-252: the field-by-field mapping of a decoded
core-data record onto the Java output objects, with the unit scalings
written in the C source. -/
def mapCoreDataToOutputs (cd : BSMCoreData) : BSMOutputs :=
  { msgCount := cd.msgCnt
    bsm_id := cd.id.take 4
    secMark := cd.secMark
    latitude := cd.lat / 10000000
    longitude := cd.long / 10000000
    elev := cd.elev / 10
    semiMajor := cd.accuracy_semiMajor * 0.05
    semiMinor := cd.accuracy_semiMinor * 0.05
    orientation := cd.accuracy_orientation * 0.054932479
    transmissionState := cd.transmission
    speed := cd.speed * 0.02
    heading := cd.heading * 0.0125
    angle := cd.angle * 1.5
    accelLong := cd.accelSet_long * 0.01
    accelLat := cd.accelSet_lat * 0.01
    accelVert := cd.accelSet_vert * 0.02
    accelYaw := cd.accelSet_yaw * 0.01
    brakeStatus := [cd.brakes_wheelBrakes.getD 0 0, cd.brakes_traction, cd.brakes_abs,
                    cd.brakes_scs, cd.brakes_brakeBoost, cd.brakes_auxBrakes]
    vehicleWidth := cd.size_width / 100
    vehicleLength := cd.size_length / 100 }

/-- wrapper.c lines 151-258, Java_..._decode_1BSM: when uper_decode reports
RC_OK the core data is mapped onto the outputs and 0 is returned; otherwise
-1 is returned and the outputs are left untouched. -/
def decode_BSM (env : DecodeEnv) (encoded : List Int) (outs : BSMOutputs) :
    Int × BSMOutputs :=
  match env.uperDecode encoded with
  | some cd => (0, mapCoreDataToOutputs cd)
  | none => (-1, outs)

/-- Counterexample environment for the encoder: allocation, UPER encoding
and output-array creation would all succeed, but the bsm_id elements cannot
be obtained. -/
def encodeEnvCE : EncodeEnv :=
  { callocOk := true
    bsmIdElements := none
    brakeElements := [0, 0, 0, 0, 0, 0]
    uperEncodedBits := fun _ => 88
    uperBuffer := fun _ => [1, 2, 3, 4, 5, 6, 7, 8, 9, 10, 11, 12]
    newByteArrayOk := true }

/-- Encoder environment in which every step succeeds, encoding to 88 bits. -/
def encodeEnvOk : EncodeEnv :=
  { callocOk := true
    bsmIdElements := some [1, 2, 3, 4]
    brakeElements := [0, 1, 0, 1, 0, 1]
    uperEncodedBits := fun _ => 88
    uperBuffer := fun _ => [10, 20, 30, 40, 50, 60, 70, 80, 90, 100, 110, 120]
    newByteArrayOk := true }

/-- An all-zero Java-side BSM input record. -/
def bsmInput0 : BSMCoreInput := ⟨0, 0, 0, 0, 0, 0, 0, 0, 0, 0, 0, 0, 0, 0, 0, 0, 0, 0⟩

/-- A concrete decoded core-data record. -/
def sampleCoreData : BSMCoreData :=
  ⟨1, [1, 2, 3, 4], 2, 3, 4, 5, 6, 7, 8, 9, 10, 11, 12, 13, 14, 15, 16,
   [1], 0, 1, 0, 1, 0, 17, 18⟩

/-- An all-zero Java-side output-object state. -/
def outputs0 : BSMOutputs :=
  ⟨0, [0, 0, 0, 0], 0, 0, 0, 0, 0, 0, 0, 0, 0, 0, 0, 0, 0, 0, 0, [0, 0, 0, 0, 0, 0], 0, 0⟩

/-- Decoder environment: the one-byte input [1] decodes to the sample core
data, anything else fails. -/
def decodeEnv0 : DecodeEnv :=
  ⟨fun bytes => if bytes = [1] then some sampleCoreData else none⟩

/-- C1: for each of the five known variant tags, storing a payload in that
variant's slot and then reading any common field through the
GET_MANEUVER_PROPERTY dispatch returns exactly the value held by that
payload: set-then-get over the variant dispatch is the identity for all
five variants. -/
theorem get_maneuver_property_roundtrip {α : Type} (m : Maneuver) (cf : CommonField α)
    (p1 : IntersectionTransitLeftTurnManeuver) (p2 : IntersectionTransitRightTurnManeuver)
    (p3 : IntersectionTransitStraightManeuver) (p4 : LaneChangeManeuver)
    (p5 : LaneFollowingManeuver) :
    GET_MANEUVER_PROPERTY { m with type := INTERSECTION_TRANSIT_LEFT_TURN, intersection_transit_left_turn_maneuver := p1 } cf = .ok (cf.onITLT p1)
    ∧ GET_MANEUVER_PROPERTY { m with type := INTERSECTION_TRANSIT_RIGHT_TURN, intersection_transit_right_turn_maneuver := p2 } cf = .ok (cf.onITRT p2)
    ∧ GET_MANEUVER_PROPERTY { m with type := INTERSECTION_TRANSIT_STRAIGHT, intersection_transit_straight_maneuver := p3 } cf = .ok (cf.onITS p3)
    ∧ GET_MANEUVER_PROPERTY { m with type := LANE_CHANGE, lane_change_maneuver := p4 } cf = .ok (cf.onLC p4)
    ∧ GET_MANEUVER_PROPERTY { m with type := LANE_FOLLOWING, lane_following_maneuver := p5 } cf = .ok (cf.onLF p5) := by
  refine ⟨?_, ?_, ?_, ?_, ?_⟩ <;>
    simp [GET_MANEUVER_PROPERTY, INTERSECTION_TRANSIT_LEFT_TURN,
      INTERSECTION_TRANSIT_RIGHT_TURN, INTERSECTION_TRANSIT_STRAIGHT,
      LANE_CHANGE, LANE_FOLLOWING]

/-- C2: a maneuver whose tag matches none of the five known variants makes
GET_MANEUVER_PROPERTY produce the recoverable error value (the embedding of
the thrown std::invalid_argument), which a caller can match on to skip the
maneuver, rather than a value or an unchecked fault. -/
theorem get_maneuver_property_unknown_variant {α : Type} (m : Maneuver)
    (cf : CommonField α) (h : m.type ∉ knownManeuverTypes) :
    GET_MANEUVER_PROPERTY m cf
      = .error "GET_MANEUVER_PROPERTY called on maneuver with invalid type id" := by
  simp only [knownManeuverTypes, List.mem_cons, List.not_mem_nil, or_false,
    not_or] at h
  obtain ⟨h1, h2, h3, h4, h5⟩ := h
  simp [GET_MANEUVER_PROPERTY, h1, h2, h3, h4, h5]

/-- C2 witness: at the concrete unrecognized tag 99 the dispatch returns
the error value. -/
theorem get_maneuver_property_unknown_variant_witness :
    unknownTagManeuver.type ∉ knownManeuverTypes
    ∧ GET_MANEUVER_PROPERTY unknownTagManeuver planner_nameField
      = .error "GET_MANEUVER_PROPERTY called on maneuver with invalid type id" :=
  ⟨by decide,
   get_maneuver_property_unknown_variant unknownTagManeuver planner_nameField (by decide)⟩

/-- C4: IsManeuverExpired is true exactly when the maneuver end time is
strictly before `now`; at the boundary, a maneuver whose end time equals
`now` is not expired. -/
theorem isManeuverExpired_iff (m : Maneuver) (now et : Rat)
    (h : GET_MANEUVER_PROPERTY m end_timeField = .ok et) :
    (IsManeuverExpired m now = .ok true ↔ et < now)
    ∧ IsManeuverExpired m et = .ok false := by
  constructor
  · simp [IsManeuverExpired, h, Except.map]
  · simp [IsManeuverExpired, h, Except.map]

/-- C4 witness: for the sample maneuver ending at time 5, expiry holds at
time 7 and fails at the boundary time 5. -/
theorem isManeuverExpired_iff_witness :
    GET_MANEUVER_PROPERTY sampleManeuver end_timeField = .ok 5
    ∧ ((IsManeuverExpired sampleManeuver 7 = .ok true ↔ (5 : Rat) < 7)
        ∧ IsManeuverExpired sampleManeuver 5 = .ok false) :=
  ⟨rfl, isManeuverExpired_iff sampleManeuver 7 5 rfl⟩

/-- C8: a trajectory is valid exactly when it has at least two points (so
one with 0 or 1 points fails and one with 2 or more passes), and a
delegation cycle whose assembled trajectory fails the check publishes
nothing. -/
theorem isTrajectoryValid_iff (t : TrajectoryPlan)
    (cp : Maneuver → TrajectoryPlan → Option TrajectoryPlan)
    (plan : Option (List Maneuver)) (now maxDuration : Rat) :
    (IsTrajectoryValid t = true ↔ 2 ≤ t.trajectory_points.length)
    ∧ (IsTrajectoryValid (PlanTrajectory cp now maxDuration (plan.getD [])).1 = false →
        SpinCallback cp plan now maxDuration = none) := by
  constructor
  · simp [IsTrajectoryValid]
  · intro h
    simp [SpinCallback, h]

/-- C8 witness: a one-point trajectory fails the check, and the concrete
cycle whose only planner call fails assembles an empty trajectory and
publishes nothing. -/
theorem isTrajectoryValid_iff_witness :
    (IsTrajectoryValid ⟨[⟨0, 0, 0⟩]⟩ = true ↔ 2 ≤ (⟨[⟨0, 0, 0⟩]⟩ : TrajectoryPlan).trajectory_points.length)
    ∧ SpinCallback cpNone (some [sampleManeuver]) 0 8 = none :=
  ⟨(isTrajectoryValid_iff ⟨[⟨0, 0, 0⟩]⟩ cpNone (some [sampleManeuver]) 0 8).1,
   (isTrajectoryValid_iff ⟨[⟨0, 0, 0⟩]⟩ cpNone (some [sampleManeuver]) 0 8).2 (by decide)⟩

/-- C3: for the plan M1 (0-5s), M2 (5-12s) with an 8-second horizon, where
M1's planner returns a 5-second segment and M2's a 7-second one: both
planners are requested, the assembled trajectory is the concatenation of
both segments, and after appending M2's segment (span 12 >= 8) the loop
stops — even a further maneuver appended to the plan is not requested. -/
theorem planTrajectory_two_maneuver_scenario :
    PlanTrajectory scenarioPlanners 0 8 [maneuverM1, maneuverM2]
      = (⟨segM1.trajectory_points ++ segM2.trajectory_points⟩, [maneuverM1, maneuverM2])
    ∧ PlanTrajectory scenarioPlanners 0 8 [maneuverM1, maneuverM2, maneuverM3]
      = (⟨segM1.trajectory_points ++ segM2.trajectory_points⟩, [maneuverM1, maneuverM2]) := by
  have e1 : IsManeuverExpired maneuverM1 0 = .ok false := rfl
  have e2 : IsManeuverExpired maneuverM2 0 = .ok false := rfl
  have ha1 : appendSegment ⟨[]⟩ segM1 = segM1 := rfl
  have ha2 : appendSegment segM1 segM2
      = ⟨segM1.trajectory_points ++ segM2.trajectory_points⟩ := rfl
  have c1 : scenarioPlanners maneuverM1 ⟨[]⟩ = some segM1 := rfl
  have c2 : scenarioPlanners maneuverM2 segM1 = some segM2 := rfl
  have hl1 : IsTrajectoryLongEnough segM1 8 = false := by
    show decide ((8 : Rat) ≤ 5 - 0) = false
    rw [decide_eq_false_iff_not]
    norm_num
  have hl2 : IsTrajectoryLongEnough ⟨segM1.trajectory_points ++ segM2.trajectory_points⟩ 8
      = true := by
    show decide ((8 : Rat) ≤ 12 - 0) = true
    rw [decide_eq_true_eq]
    norm_num
  constructor <;>
    simp [PlanTrajectory, PlanTrajectoryAux, e1, e2, ha1, ha2, c1, c2, hl1, hl2]

/-- C6: when the planner call for a (non-expired) maneuver fails, the
aggregation loop returns the trajectory accumulated before the failure and
requests no later maneuver: only the failing maneuver is added to the
request log, whatever maneuvers follow. -/
theorem planTrajectory_stops_on_failure
    (cp : Maneuver → TrajectoryPlan → Option TrajectoryPlan)
    (now maxDuration : Rat) (m : Maneuver) (rest : List Maneuver)
    (acc : TrajectoryPlan) (log : List Maneuver)
    (hexp : IsManeuverExpired m now = .ok false)
    (hfail : cp m acc = none) :
    PlanTrajectoryAux cp now maxDuration (m :: rest) acc log = (acc, log ++ [m]) := by
  simp [PlanTrajectoryAux, hexp, hfail]

/-- C6 witness: the loop over [M1, M2] with M1's planner failing stops at M1
with the empty partial trajectory. -/
theorem planTrajectory_stops_on_failure_witness :
    IsManeuverExpired maneuverM1 0 = .ok false
    ∧ cpFailM1 maneuverM1 ⟨[]⟩ = none
    ∧ PlanTrajectoryAux cpFailM1 0 8 [maneuverM1, maneuverM2] ⟨[]⟩ [] = (⟨[]⟩, [maneuverM1]) :=
  ⟨rfl, by decide,
   planTrajectory_stops_on_failure cpFailM1 0 8 maneuverM1 [maneuverM2] ⟨[]⟩ [] rfl (by decide)⟩

/-- C7 counterexample: in the cycle where M1's planner call fails while M2's
planner is available, the final trajectory does not consist of M2's points —
the loop stops at M1 and M2 is never requested at all. -/
theorem cycle_after_failure_counterexample :
    (PlanTrajectory cpFailM1 0 8 [maneuverM1, maneuverM2]).1.trajectory_points
      ≠ segM2.trajectory_points
    ∧ maneuverM2 ∉ (PlanTrajectory cpFailM1 0 8 [maneuverM1, maneuverM2]).2 := by
  decide

/-- C7 amended: when M1's planner call fails, the loop stops at M1 with the
empty partial trajectory, M2 is never requested, the degenerate (fewer than
two points) result is discarded so nothing is published, and the cycle still
returns normally. -/
theorem cycle_after_failure_behavior :
    PlanTrajectory cpFailM1 0 8 [maneuverM1, maneuverM2] = (⟨[]⟩, [maneuverM1])
    ∧ SpinCallback cpFailM1 (some [maneuverM1, maneuverM2]) 0 8 = none := by
  constructor <;> decide

/-- Appending a binding for a name that is not yet cached makes lookup of
that name find the new binding. -/
theorem lookupClient_append_self (n : String) (v : Nat) :
    ∀ l : List (String × Nat), lookupClient l n = none →
      lookupClient (l ++ [(n, v)]) n = some v := by
  intro l
  induction l with
  | nil => intro _; simp [lookupClient]
  | cons p t ih =>
    intro h
    obtain ⟨k, w⟩ := p
    rw [List.cons_append]
    simp only [lookupClient] at h ⊢
    by_cases hk : k = n
    · rw [if_pos hk] at h
      exact absurd h (Option.some_ne_none w)
    · rw [if_neg hk] at h ⊢
      exact ih h

/-- Appending a binding for one name does not change lookup of another. -/
theorem lookupClient_append_ne (n nn : String) (v : Nat) (hne : nn ≠ n) :
    ∀ l : List (String × Nat),
      lookupClient (l ++ [(n, v)]) nn = lookupClient l nn := by
  intro l
  induction l with
  | nil => simp [lookupClient, Ne.symm hne]
  | cons p t ih =>
    obtain ⟨k, w⟩ := p
    rw [List.cons_append]
    simp only [lookupClient]
    by_cases hk : k = nn
    · rw [if_pos hk, if_pos hk]
    · rw [if_neg hk, if_neg hk]
      exact ih

/-- A successful lookup exhibits a cached binding. -/
theorem lookupClient_mem (n : String) (c : Nat) :
    ∀ l : List (String × Nat), lookupClient l n = some c → (n, c) ∈ l := by
  intro l
  induction l with
  | nil => intro h; simp [lookupClient] at h
  | cons p t ih =>
    intro h
    obtain ⟨k, w⟩ := p
    simp only [lookupClient] at h
    by_cases hk : k = n
    · rw [if_pos hk] at h
      have hw : w = c := Option.some.inj h
      subst hk
      subst hw
      exact List.mem_cons_self _ _
    · rw [if_neg hk] at h
      exact List.mem_cons_of_mem _ (ih h)

/-- In a list whose second components are pairwise distinct, bindings with
different keys carry different values. -/
theorem nodup_snd_ne {l : List (String × Nat)} (hnd : (l.map Prod.snd).Nodup)
    {n1 n2 : String} {c1 c2 : Nat} (h1 : (n1, c1) ∈ l) (h2 : (n2, c2) ∈ l)
    (hne : n1 ≠ n2) : c1 ≠ c2 := by
  induction l with
  | nil => simp at h1
  | cons p t ih =>
    simp only [List.map_cons, List.nodup_cons] at hnd
    rcases List.mem_cons.mp h1 with h1e | h1m
    · rcases List.mem_cons.mp h2 with h2e | h2m
      · rw [← h2e] at h1e
        exact absurd (congrArg Prod.fst h1e) hne
      · intro hcc
        apply hnd.1
        have hmm : c2 ∈ t.map Prod.snd := List.mem_map_of_mem Prod.snd h2m
        rw [← h1e]
        simpa [hcc] using hmm
    · rcases List.mem_cons.mp h2 with h2e | h2m
      · intro hcc
        apply hnd.1
        have hmm : c1 ∈ t.map Prod.snd := List.mem_map_of_mem Prod.snd h1m
        rw [← h2e]
        simpa [hcc] using hmm
      · exact ih hnd.2 h1m h2m

/-- C5: GetPlannerClientByName is a memoizing lookup — a second request for
the same name returns the identical cached connection and leaves the
registry unchanged (nothing new is created), requests for two different
names yield distinct connections, and no cached entry is ever evicted. -/
theorem getPlannerClientByName_memoizes (r : PlannerRegistry) (n1 n2 : String)
    (hwf : RegistryWF r) (hne : n1 ≠ n2) :
    GetPlannerClientByName (GetPlannerClientByName r n1).2 n1 = GetPlannerClientByName r n1
    ∧ (GetPlannerClientByName (GetPlannerClientByName r n1).2 n2).1
        ≠ (GetPlannerClientByName r n1).1
    ∧ ∀ e ∈ r.trajectory_planners, e ∈ (GetPlannerClientByName r n1).2.trajectory_planners := by
  obtain ⟨hbound, hnd⟩ := hwf
  cases hl1 : lookupClient r.trajectory_planners n1 with
  | some c1 =>
    have hget1 : GetPlannerClientByName r n1 = (c1, r) := by
      simp [GetPlannerClientByName, hl1]
    rw [hget1]
    refine ⟨?_, ?_, ?_⟩
    · show GetPlannerClientByName r n1 = (c1, r)
      exact hget1
    · show (GetPlannerClientByName r n2).1 ≠ c1
      cases hl2 : lookupClient r.trajectory_planners n2 with
      | some c2 =>
        have hget2 : GetPlannerClientByName r n2 = (c2, r) := by
          simp [GetPlannerClientByName, hl2]
        rw [hget2]
        exact nodup_snd_ne hnd (lookupClient_mem n2 c2 _ hl2)
          (lookupClient_mem n1 c1 _ hl1) (Ne.symm hne)
      | none =>
        have hget2 : GetPlannerClientByName r n2
            = (r.next_id, ⟨r.trajectory_planners ++ [(n2, r.next_id)], r.next_id + 1⟩) := by
          simp [GetPlannerClientByName, hl2]
        rw [hget2]
        exact ne_of_gt (hbound _ (lookupClient_mem n1 c1 _ hl1))
    · intro e he
      exact he
  | none =>
    have hget1 : GetPlannerClientByName r n1
        = (r.next_id, ⟨r.trajectory_planners ++ [(n1, r.next_id)], r.next_id + 1⟩) := by
      simp [GetPlannerClientByName, hl1]
    rw [hget1]
    refine ⟨?_, ?_, ?_⟩
    · show GetPlannerClientByName
          ⟨r.trajectory_planners ++ [(n1, r.next_id)], r.next_id + 1⟩ n1
        = (r.next_id, ⟨r.trajectory_planners ++ [(n1, r.next_id)], r.next_id + 1⟩)
      have hl : lookupClient (r.trajectory_planners ++ [(n1, r.next_id)]) n1
          = some r.next_id :=
        lookupClient_append_self n1 r.next_id r.trajectory_planners hl1
      simp [GetPlannerClientByName, hl]
    · show (GetPlannerClientByName
          ⟨r.trajectory_planners ++ [(n1, r.next_id)], r.next_id + 1⟩ n2).1 ≠ r.next_id
      have hl2eq : lookupClient (r.trajectory_planners ++ [(n1, r.next_id)]) n2
          = lookupClient r.trajectory_planners n2 :=
        lookupClient_append_ne n1 n2 r.next_id (Ne.symm hne) r.trajectory_planners
      cases hl2 : lookupClient r.trajectory_planners n2 with
      | some c2 =>
        have hget2 : GetPlannerClientByName
            ⟨r.trajectory_planners ++ [(n1, r.next_id)], r.next_id + 1⟩ n2
            = (c2, ⟨r.trajectory_planners ++ [(n1, r.next_id)], r.next_id + 1⟩) := by
          simp [GetPlannerClientByName, hl2eq, hl2]
        rw [hget2]
        exact ne_of_lt (hbound _ (lookupClient_mem n2 c2 _ hl2))
      | none =>
        have hget2 : GetPlannerClientByName
            ⟨r.trajectory_planners ++ [(n1, r.next_id)], r.next_id + 1⟩ n2
            = (r.next_id + 1,
               ⟨(r.trajectory_planners ++ [(n1, r.next_id)]) ++ [(n2, r.next_id + 1)],
                r.next_id + 2⟩) := by
          simp [GetPlannerClientByName, hl2eq, hl2]
        rw [hget2]
        exact Nat.succ_ne_self r.next_id
    · intro e he
      exact List.mem_append_left _ he

/-- C5 witness: starting from the empty registry, two requests for the same
name return the identical connection, a request for a different name
returns a distinct one, and nothing is evicted. -/
theorem getPlannerClientByName_memoizes_witness :
    RegistryWF ⟨[], 0⟩
    ∧ (GetPlannerClientByName (GetPlannerClientByName ⟨[], 0⟩ "planner_a").2 "planner_a"
        = GetPlannerClientByName ⟨[], 0⟩ "planner_a"
      ∧ (GetPlannerClientByName (GetPlannerClientByName ⟨[], 0⟩ "planner_a").2 "planner_b").1
        ≠ (GetPlannerClientByName ⟨[], 0⟩ "planner_a").1
      ∧ ∀ e ∈ (⟨[], 0⟩ : PlannerRegistry).trajectory_planners,
          e ∈ (GetPlannerClientByName ⟨[], 0⟩ "planner_a").2.trajectory_planners) :=
  ⟨⟨fun p hp => absurd hp (List.not_mem_nil p), List.nodup_nil⟩,
   getPlannerClientByName_memoizes ⟨[], 0⟩ "planner_a" "planner_b"
     ⟨fun p hp => absurd hp (List.not_mem_nil p), List.nodup_nil⟩ (by decide)⟩

/-- C9 counterexample: encode_BSM also returns NULL when the bsm_id array
elements cannot be obtained (wrapper.c line 46), a case the claim's
"exactly when" enumeration omits — here message-frame allocation succeeds,
UPER encoding would succeed, and output-array creation would succeed, yet
the result is NULL. -/
theorem encode_BSM_null_counterexample :
    encode_BSM encodeEnvCE bsmInput0 = none
    ∧ encodeEnvCE.callocOk = true
    ∧ (∀ msg : MessageFrame, encodeEnvCE.uperEncodedBits msg ≠ -1)
    ∧ encodeEnvCE.newByteArrayOk = true :=
  ⟨rfl, rfl, fun _ => by show (88 : Int) ≠ -1; decide, rfl⟩

/-- C9 amended: encode_BSM returns NULL exactly when message-frame
allocation fails, when the bsm_id input elements cannot be obtained, when
UPER encoding fails (ec.encoded is -1), or when the output byte array
cannot be created; otherwise it returns exactly ec.encoded / 8 bytes taken
from the encoding buffer. -/
theorem encode_BSM_spec (env : EncodeEnv) (bsm : BSMCoreInput) :
    (encode_BSM env bsm = none ↔
      env.callocOk = false
      ∨ env.bsmIdElements = none
      ∨ ∃ idElems, env.bsmIdElements = some idElems
          ∧ (env.uperEncodedBits (buildMessageFrame bsm idElems env.brakeElements) = -1
             ∨ env.newByteArrayOk = false))
    ∧ ∀ idElems, env.bsmIdElements = some idElems →
        env.callocOk = true →
        env.uperEncodedBits (buildMessageFrame bsm idElems env.brakeElements) ≠ -1 →
        env.newByteArrayOk = true →
        encode_BSM env bsm
          = some ((env.uperBuffer (buildMessageFrame bsm idElems env.brakeElements)).take
              ((env.uperEncodedBits (buildMessageFrame bsm idElems env.brakeElements)) / 8).toNat) := by
  constructor
  · cases hc : env.callocOk with
    | false => simp [encode_BSM, hc]
    | true =>
      cases hid : env.bsmIdElements with
      | none => simp [encode_BSM, hc, hid]
      | some idElems =>
        by_cases henc : env.uperEncodedBits (buildMessageFrame bsm idElems env.brakeElements) = -1
        · simp [encode_BSM, hc, hid, henc]
        · cases hnew : env.newByteArrayOk with
          | false => simp [encode_BSM, hc, hid, henc, hnew]
          | true => simp [encode_BSM, hc, hid, henc, hnew]
  · intro idElems hid hc henc hnew
    simp [encode_BSM, hc, hid, henc, hnew]

/-- C9 witness: in the all-success environment the encoder returns the
first 88 / 8 = 11 buffer bytes. -/
theorem encode_BSM_spec_witness :
    encodeEnvOk.bsmIdElements = some [1, 2, 3, 4]
    ∧ encodeEnvOk.callocOk = true
    ∧ encodeEnvOk.uperEncodedBits (buildMessageFrame bsmInput0 [1, 2, 3, 4] encodeEnvOk.brakeElements) ≠ -1
    ∧ encodeEnvOk.newByteArrayOk = true
    ∧ encode_BSM encodeEnvOk bsmInput0
        = some ((encodeEnvOk.uperBuffer (buildMessageFrame bsmInput0 [1, 2, 3, 4] encodeEnvOk.brakeElements)).take
            ((encodeEnvOk.uperEncodedBits (buildMessageFrame bsmInput0 [1, 2, 3, 4] encodeEnvOk.brakeElements)) / 8).toNat) :=
  ⟨rfl, rfl, by decide, rfl,
   (encode_BSM_spec encodeEnvOk bsmInput0).2 [1, 2, 3, 4] rfl rfl (by decide) rfl⟩

/-- C10: decode_BSM is atomic on error — when UPER decoding does not report
RC_OK it returns -1 and the Java output objects keep their prior state (no
setter call, no output-array write is modelled as the outputs being
unchanged); when decoding succeeds it returns 0 with every decoded
core-data field mapped onto the outputs. -/
theorem decode_BSM_atomic (env : DecodeEnv) (encoded : List Int) (outs : BSMOutputs) :
    (env.uperDecode encoded = none → decode_BSM env encoded outs = (-1, outs))
    ∧ ∀ cd, env.uperDecode encoded = some cd →
        decode_BSM env encoded outs = (0, mapCoreDataToOutputs cd) := by
  constructor
  · intro h
    simp [decode_BSM, h]
  · intro cd h
    simp [decode_BSM, h]

/-- C10 witness: the sample environment fails on the empty input leaving
the outputs untouched, and succeeds on [1] mapping the sample core data. -/
theorem decode_BSM_atomic_witness :
    decodeEnv0.uperDecode [] = none
    ∧ decode_BSM decodeEnv0 [] outputs0 = (-1, outputs0)
    ∧ decodeEnv0.uperDecode [1] = some sampleCoreData
    ∧ decode_BSM decodeEnv0 [1] outputs0 = (0, mapCoreDataToOutputs sampleCoreData) :=
  ⟨by decide,
   (decode_BSM_atomic decodeEnv0 [] outputs0).1 (by decide),
   by decide,
   (decode_BSM_atomic decodeEnv0 [1] outputs0).2 sampleCoreData (by decide)⟩
